import Mathlib

/-!
Verification development for the Tempo stablecoin-DEX market-maker engine.

Shallow embedding conventions:
* JavaScript numbers are modelled as rationals (`ℚ`) with exact arithmetic;
  the programs only perform additions, multiplications, divisions by
  constants, `Math.round`, `Math.floor`, `Math.max` and `Math.min` on them.
* `Math.round x` is modelled as `⌊x + 1/2⌋` (JavaScript rounds halves toward
  positive infinity, for negative inputs as well: `Math.round (-2.5) = -2`).
* The JavaScript remainder operator on numbers is
  `x % y = x - y * trunc (x / y)` (truncation toward zero).
* `bigint` quantities (order amounts, order ids) are modelled as `Nat`.
* Fallible code (`throw` in the source) is modelled with `Except String`;
  asynchronous chain lookups are passed in as explicit functions returning
  `Except`.
* `Date` objects are modelled by the record `JsDate`, carrying exactly the
  observations the source makes of them: `getDate`, `getMonth`,
  `getFullYear` and `getTime` (epoch milliseconds).  ISO timestamp strings
  stored in the state are conflated with their parse.
* The mutation of the in-memory state object is made explicit: functions
  return the updated state; a `Bool` component records whether `saveState`
  (the file write) was invoked.
-/

namespace Tempo

/-! ## Constants (src/config.ts, `TICK_CONSTANTS` and `config`) -/

def TICK_SPACING : ℚ := 10

def TICK_BOUNDS_MIN : ℚ := -2000

def TICK_BOUNDS_MAX : ℚ := 2000

def TICKS_PER_BPS : ℚ := 10

def TOTAL_SPREAD_BPS : ℚ := 10

/-- Config entry `ORDER_SIZE_HUMAN` (the string 100); the source applies
`parseFloat` to it. -/
def ORDER_SIZE_HUMAN : ℚ := 100

def MAX_TX_PER_DAY : ℤ := 100

def MAX_CANCELS_PER_HOUR : ℤ := 10

/-! ## JavaScript numeric primitives -/

/-- JavaScript `Math.round`: rounds half toward positive infinity. -/
def jsRound (x : ℚ) : ℤ := ⌊x + 1 / 2⌋

/-- Truncation toward zero, as used by the JavaScript `%` operator. -/
def jsTrunc (x : ℚ) : ℤ := if 0 ≤ x then ⌊x⌋ else ⌈x⌉

/-- JavaScript remainder on numbers: `x % y = x - y * trunc (x / y)`. -/
def jsMod (x y : ℚ) : ℚ := x - y * (jsTrunc (x / y) : ℚ)

/-- Helper: whether an `Except` computation succeeded (`true`) or threw. -/
def exceptIsOk {ε α : Type} : Except ε α → Bool
  | .ok _ => true
  | .error _ => false

/-! ## Tick calculator (src/ticks.ts, bundled in src/index.ts) -/

/-- Source function `bpsToTicks`: multiply by `TICKS_PER_BPS`. -/
def bpsToTicks (bps : ℚ) : ℚ := bps * TICKS_PER_BPS

/-- Source function `ticksToBps`: divide by `TICKS_PER_BPS`. -/
def ticksToBps (ticks : ℚ) : ℚ := ticks / TICKS_PER_BPS

/-- Source function `roundToSpacing`: `Math.round(tick / TICK_SPACING) * TICK_SPACING`. -/
def roundToSpacing (tick : ℚ) : ℚ := (jsRound (tick / TICK_SPACING) : ℚ) * TICK_SPACING

/-- Source function `clampTick`: `Math.max(MIN, Math.min(MAX, tick))`. -/
def clampTick (tick : ℚ) : ℚ := max TICK_BOUNDS_MIN (min TICK_BOUNDS_MAX tick)

/-- Source function `isValidTick`: bounds check then spacing check. -/
def isValidTick (tick : ℚ) : Bool :=
  if tick < TICK_BOUNDS_MIN ∨ TICK_BOUNDS_MAX < tick then false
  else if jsMod tick TICK_SPACING ≠ 0 then false
  else true

/-- Source function `assertFlipConstraints`: bid needs `flipTick > tick`, ask needs
`flipTick < tick`; violation throws. -/
def assertFlipConstraints (isBid : Bool) (tick flipTick : ℚ) : Except String Unit :=
  if isBid then
    if flipTick ≤ tick then .error "Flip constraint violated for bid" else .ok ()
  else
    if tick ≤ flipTick then .error "Flip constraint violated for ask" else .ok ()

/-- Source function `calculateHalfSpreadTicks`. -/
def calculateHalfSpreadTicks (totalSpreadBps : ℚ) : ℚ :=
  roundToSpacing (bpsToTicks (totalSpreadBps / 2))

structure QuoteTicks where
  bidTick : ℚ
  askTick : ℚ
  midTick : ℚ
  halfSpreadTicks : ℚ
deriving DecidableEq

/-- Source function `calculateQuoteTicks`: mid tick 0 (stablecoin peg),
clamped symmetric quotes, throwing if a computed tick is invalid. -/
def calculateQuoteTicks (totalSpreadBps : ℚ) : Except String QuoteTicks :=
  let midTick : ℚ := 0
  let halfSpreadTicks := calculateHalfSpreadTicks totalSpreadBps
  let bidTick := clampTick (midTick - halfSpreadTicks)
  let askTick := clampTick (midTick + halfSpreadTicks)
  if isValidTick bidTick = false ∨ isValidTick askTick = false then
    .error "Invalid ticks calculated"
  else
    .ok { bidTick := bidTick, askTick := askTick, midTick := midTick,
          halfSpreadTicks := halfSpreadTicks }

/-! ## Quote parameters (src/strategy.ts, `getQuoteParams`) -/

structure QuoteParams where
  baseToken : String
  quoteToken : String
  bidTick : ℚ
  askTick : ℚ
  bidFlipTick : ℚ
  askFlipTick : ℚ
  orderSize : ℤ
  decimals : ℕ
deriving DecidableEq

/-- Source function `getQuoteParams`: derives the two-sided quote from
`calculateQuoteTicks()` (called with the configured `TOTAL_SPREAD_BPS`), pairs
the flip targets crosswise, asserts the flip constraints before returning, and
scales the configured human order size by the token decimals.  The
asynchronous decimals lookup of the source is passed in as the `decimals`
argument. -/
def getQuoteParams (baseToken : String) (quoteToken : String) (decimals : ℕ) :
    Except String QuoteParams := do
  let q ← calculateQuoteTicks TOTAL_SPREAD_BPS
  let bidFlipTick := q.askTick
  let askFlipTick := q.bidTick
  let _ ← assertFlipConstraints true q.bidTick bidFlipTick
  let _ ← assertFlipConstraints false q.askTick askFlipTick
  let orderSize : ℤ := ⌊ORDER_SIZE_HUMAN * (10 : ℚ) ^ decimals⌋
  pure { baseToken := baseToken, quoteToken := quoteToken,
         bidTick := q.bidTick, askTick := q.askTick,
         bidFlipTick := bidFlipTick, askFlipTick := askFlipTick,
         orderSize := orderSize, decimals := decimals }

/-! ## Order lookup (src/dex.ts, `getOrder`) -/

inductive OrderStatus where
  | openStatus
  | filledStatus
  | cancelledStatus
  | unknownStatus
deriving DecidableEq

/-- Record `OrderInfo` of src/types.ts. -/
structure OrderInfo where
  orderId : ℕ
  maker : String
  baseToken : String
  quoteToken : String
  isBid : Bool
  isFlip : Bool
  tick : ℤ
  flipTick : Option ℤ
  amount : ℕ
  remainingAmount : ℕ
  status : OrderStatus
deriving DecidableEq

/-- The raw record returned by `client.dex.getOrder`. -/
structure RawOrder where
  maker : String
  bookKey : String
  isBid : Bool
  isFlip : Bool
  tick : ℤ
  flipTick : ℤ
  amount : ℕ
  remaining : ℕ
deriving DecidableEq

/-- Errors thrown by the RPC layer: a contract revert (viem
`ContractFunctionExecutionError`, with an optionally parsed error name and a
message) or any other RPC/network failure. -/
inductive DexCallError where
  | contractRevert (errorName : Option String) (message : String)
  | rpcFailure (message : String)
deriving DecidableEq

def zeroAddress : String := "0x0000000000000000000000000000000000000000"

/-- Substring test `errorMsg.includes(...)` for the token OrderDoesNotExist. -/
def containsOrderDoesNotExist (s : String) : Bool :=
  2 ≤ (s.splitOn "OrderDoesNotExist").length

/-- The condition under which the `catch` in `getOrder` returns `null`:
a contract revert whose parsed name is `OrderDoesNotExist`, or whose message
mentions it. -/
def isOrderDoesNotExistError : DexCallError → Bool
  | .contractRevert errorName message =>
      errorName == some "OrderDoesNotExist" || containsOrderDoesNotExist message
  | .rpcFailure _ => false

/-- Source function `getOrder`: the chain response is passed in as `resp`.
Returns `none` for a missing order (falsy record, zero maker address, or the
`OrderDoesNotExist` revert); re-throws every other error. -/
def getOrder (orderId : ℕ) (resp : Except DexCallError (Option RawOrder)) :
    Except DexCallError (Option OrderInfo) :=
  match resp with
  | .ok none => .ok none
  | .ok (some o) =>
      if o.maker = zeroAddress then .ok none
      else
        .ok (some
          { orderId := orderId, maker := o.maker, baseToken := o.bookKey,
            quoteToken := "0x20c0000000000000000000000000000000000000",
            isBid := o.isBid, isFlip := o.isFlip, tick := o.tick,
            flipTick := if o.isFlip then some o.flipTick else none,
            amount := o.amount, remainingAmount := o.remaining,
            status := if o.remaining = 0 then .filledStatus else .openStatus })
  | .error e => if isOrderDoesNotExistError e then .ok none else .error e

/-! ## Persistent state (src/state.ts) -/

/-- The observations the source makes of a `Date`: `getDate`, `getMonth`,
`getFullYear` and `getTime` (epoch milliseconds). -/
structure JsDate where
  day : ℤ
  month : ℤ
  year : ℤ
  millis : ℤ
deriving DecidableEq

structure TxCounters where
  dailyTxCount : ℤ
  dailyResetAt : JsDate
  hourlyCancelCount : ℤ
  hourlyResetAt : JsDate
deriving DecidableEq

structure PairState where
  base : String
  quote : String
  bidOrderId : Option String
  askOrderId : Option String
  lastBidTick : Option ℤ
  lastAskTick : Option ℤ
  lastBidFlipTick : Option ℤ
  lastAskFlipTick : Option ℤ
  updatedAt : JsDate
deriving DecidableEq

structure EngineState where
  schemaVersion : ℤ
  makerAddress : String
  pairs : List PairState
  lastProcessedBlock : ℤ
  txCounters : TxCounters
  createdAt : JsDate
  updatedAt : JsDate
deriving DecidableEq

def SCHEMA_VERSION : ℤ := 1

/-- Source function `createDefaultState` with `now = new Date()`. -/
def createDefaultState (makerAddress : String) (now : JsDate) : EngineState :=
  { schemaVersion := SCHEMA_VERSION
    makerAddress := makerAddress
    pairs := []
    lastProcessedBlock := 0
    txCounters :=
      { dailyTxCount := 0, dailyResetAt := now,
        hourlyCancelCount := 0, hourlyResetAt := now }
    createdAt := now
    updatedAt := now }

/-- Source function `saveState`: stamps `updatedAt` and rewrites the file (the write itself is
external; we keep the in-memory effect). -/
def saveState (s : EngineState) (now : JsDate) : EngineState :=
  { s with updatedAt := now }

/-- How the state file read went: no file, unreadable or unparseable content
(any exception inside the `try`), or a parsed `EngineState`. -/
inductive StateFileRead where
  | missing
  | unreadable
  | parsed (s : EngineState)

/-- Source function `loadState`: the second component records whether a fresh
default state was fabricated and persisted. -/
def loadState (file : StateFileRead) (makerAddress : String) (now : JsDate) :
    EngineState × Bool :=
  match file with
  | .missing => (saveState (createDefaultState makerAddress now) now, true)
  | .unreadable => (saveState (createDefaultState makerAddress now) now, true)
  | .parsed s =>
      if s.schemaVersion ≠ SCHEMA_VERSION then
        (saveState (createDefaultState makerAddress now) now, true)
      else if s.makerAddress.toLower ≠ makerAddress.toLower then
        (saveState (createDefaultState makerAddress now) now, true)
      else (s, false)

/-! ## Budget enforcement (src/state.ts, `incrementTxCounter` / `checkTxBudget`) -/

/-- Result record of the budget functions.  `hourlyRemaining = none` encodes
the source value `Infinity` (the non-cancel case). -/
structure BudgetResult where
  allowed : Bool
  dailyRemaining : ℤ
  hourlyRemaining : Option ℤ
deriving DecidableEq

/-- The daily-reset block of `incrementTxCounter`: zero the daily counter if
the calendar date (day, month or year) of `now` differs from the stored
`dailyResetAt`. -/
def resetDailyIfNeeded (tc : TxCounters) (now : JsDate) : TxCounters :=
  if now.day ≠ tc.dailyResetAt.day ∨ now.month ≠ tc.dailyResetAt.month ∨
      now.year ≠ tc.dailyResetAt.year then
    { tc with dailyTxCount := 0, dailyResetAt := now }
  else tc

/-- The hourly-reset block of `incrementTxCounter`: zero the hourly cancel
counter if `(now - hourlyResetAt) / (1000 * 60 * 60) >= 1`. -/
def resetHourlyIfNeeded (tc : TxCounters) (now : JsDate) : TxCounters :=
  if 1 ≤ ((now.millis - tc.hourlyResetAt.millis : ℤ) : ℚ) / (1000 * 60 * 60) then
    { tc with hourlyCancelCount := 0, hourlyResetAt := now }
  else tc

/-- Source function `incrementTxCounter`: applies the window resets, checks
the allowance, and only when allowed increments and persists.  Returns the
updated in-memory state, the result record, and whether `saveState` ran. -/
def incrementTxCounter (state : EngineState) (now : JsDate) (isCancel : Bool) :
    EngineState × BudgetResult × Bool :=
  let tc2 := resetHourlyIfNeeded (resetDailyIfNeeded state.txCounters now) now
  let dailyRemaining := MAX_TX_PER_DAY - tc2.dailyTxCount
  let allowed : Bool :=
    decide (0 < dailyRemaining) &&
      (if isCancel then decide (0 < MAX_CANCELS_PER_HOUR - tc2.hourlyCancelCount) else true)
  let tc3 :=
    if allowed then
      { tc2 with dailyTxCount := tc2.dailyTxCount + 1,
                 hourlyCancelCount := tc2.hourlyCancelCount + (if isCancel then 1 else 0) }
    else tc2
  let state1 := { state with txCounters := tc3 }
  let state2 := if allowed then saveState state1 now else state1
  (state2,
   { allowed := allowed,
     dailyRemaining := max 0 (dailyRemaining - 1),
     hourlyRemaining :=
       if isCancel then
         some (max 0 (MAX_CANCELS_PER_HOUR - tc2.hourlyCancelCount - 1))
       else none },
   allowed)

/-- Source function `checkTxBudget`: the non-mutating preview.  It applies
the same two window conditions as `incrementTxCounter` but to local copies of
the counts. -/
def checkTxBudget (state : EngineState) (now : JsDate) (isCancel : Bool) : BudgetResult :=
  let tc := state.txCounters
  let dailyCount :=
    if now.day ≠ tc.dailyResetAt.day ∨ now.month ≠ tc.dailyResetAt.month ∨
        now.year ≠ tc.dailyResetAt.year then 0
    else tc.dailyTxCount
  let hourlyCount :=
    if 1 ≤ ((now.millis - tc.hourlyResetAt.millis : ℤ) : ℚ) / (1000 * 60 * 60) then 0
    else tc.hourlyCancelCount
  let dailyRemaining := MAX_TX_PER_DAY - dailyCount
  { allowed :=
      decide (0 < dailyRemaining) &&
        (if isCancel then decide (0 < MAX_CANCELS_PER_HOUR - hourlyCount) else true),
    dailyRemaining := dailyRemaining,
    hourlyRemaining :=
      if isCancel then some (MAX_CANCELS_PER_HOUR - hourlyCount) else none }

/-! ## Reconciliation (src/state.ts, `reconcileOrders`)

`fetch oid` models `getOrder(stringToOrderId(oid))`: an `.error` covers both a
re-thrown RPC failure and a `BigInt` parse failure, the two ways the `try`
block can throw.  The error type is abstract because the surrounding `catch`
never inspects the exception. -/

structure ReconcileResult where
  bidValid : Bool
  askValid : Bool
  staleOrderIds : List String
deriving DecidableEq

/-- The bid half of `reconcileOrders`: guarded by the JavaScript truthiness of
`pairState.bidOrderId` (null or empty string skips).  Returns the updated pair
state, the stale ids pushed, and the `bidValid` flag. -/
def reconcileBidStep {ε : Type} (fetch : String → Except ε (Option OrderInfo))
    (ps : PairState) : PairState × List String × Bool :=
  match ps.bidOrderId with
  | some oid =>
      if oid = "" then (ps, ([], false))
      else
        match fetch oid with
        | .ok (some order) =>
            if 0 < order.remainingAmount then (ps, ([], true))
            else ({ ps with bidOrderId := none }, ([oid], false))
        | .ok none => ({ ps with bidOrderId := none }, ([oid], false))
        | .error _ => ({ ps with bidOrderId := none }, ([oid], false))
  | none => (ps, ([], false))

/-- The ask half of `reconcileOrders`, identical shape. -/
def reconcileAskStep {ε : Type} (fetch : String → Except ε (Option OrderInfo))
    (ps : PairState) : PairState × List String × Bool :=
  match ps.askOrderId with
  | some oid =>
      if oid = "" then (ps, ([], false))
      else
        match fetch oid with
        | .ok (some order) =>
            if 0 < order.remainingAmount then (ps, ([], true))
            else ({ ps with askOrderId := none }, ([oid], false))
        | .ok none => ({ ps with askOrderId := none }, ([oid], false))
        | .error _ => ({ ps with askOrderId := none }, ([oid], false))
  | none => (ps, ([], false))

/-- Source function `reconcileOrders` restricted to the pair state it
operates on (`getPairState` retrieval and the trailing `saveState` are the
external shell).  Checks the bid order first, then the ask order on the
updated pair state. -/
def reconcileOrders {ε : Type} (fetch : String → Except ε (Option OrderInfo))
    (ps : PairState) : PairState × ReconcileResult :=
  let b := reconcileBidStep fetch ps
  let a := reconcileAskStep fetch b.1
  (a.1, { bidValid := b.2.2, askValid := a.2.2, staleOrderIds := b.2.1 ++ a.2.1 })

end Tempo

namespace Tempo

lemma jsTrunc_intCast (k : ℤ) : jsTrunc (k : ℚ) = k := by
  unfold jsTrunc
  split <;> simp

lemma jsMod_mul_ten (k : ℤ) : jsMod ((k : ℚ) * 10) 10 = 0 := by
  unfold jsMod
  rw [show ((k : ℚ) * 10) / 10 = (k : ℚ) by field_simp, jsTrunc_intCast]
  ring

lemma clampTick_mul_ten (k : ℤ) :
    clampTick ((k : ℚ) * 10) = ((max (-200) (min 200 k) : ℤ) : ℚ) * 10 := by
  unfold clampTick TICK_BOUNDS_MIN TICK_BOUNDS_MAX
  push_cast
  rw [max_mul_of_nonneg _ _ (by norm_num : (0:ℚ) ≤ 10),
      min_mul_of_nonneg _ _ (by norm_num : (0:ℚ) ≤ 10)]
  norm_num

lemma isValidTick_mul_ten (k : ℤ) (h1 : -200 ≤ k) (h2 : k ≤ 200) :
    isValidTick ((k : ℚ) * 10) = true := by
  unfold isValidTick TICK_BOUNDS_MIN TICK_BOUNDS_MAX TICK_SPACING
  rw [if_neg, if_neg]
  · simp [jsMod_mul_ten]
  · have h1q : (-200 : ℚ) ≤ (k : ℚ) := by exact_mod_cast h1
    have h2q : (k : ℚ) ≤ 200 := by exact_mod_cast h2
    rw [not_or]
    constructor
    · push_neg
      nlinarith
    · push_neg
      nlinarith

lemma calculateHalfSpreadTicks_eq (t : ℚ) :
    calculateHalfSpreadTicks t = ((jsRound (t / 2) : ℤ) : ℚ) * 10 := by
  unfold calculateHalfSpreadTicks roundToSpacing bpsToTicks TICKS_PER_BPS TICK_SPACING
  rw [show t / 2 * 10 / 10 = t / 2 by ring]

lemma calculateQuoteTicks_eq (t : ℚ) :
    calculateQuoteTicks t = .ok
      { bidTick := ((max (-200) (min 200 (-(jsRound (t / 2)))) : ℤ) : ℚ) * 10,
        askTick := ((max (-200) (min 200 (jsRound (t / 2))) : ℤ) : ℚ) * 10,
        midTick := 0,
        halfSpreadTicks := ((jsRound (t / 2) : ℤ) : ℚ) * 10 } := by
  simp only [calculateQuoteTicks, calculateHalfSpreadTicks_eq]
  rw [show (0 : ℚ) - ((jsRound (t / 2) : ℤ) : ℚ) * 10 = ((-(jsRound (t / 2)) : ℤ) : ℚ) * 10 by
        push_cast; ring,
      show (0 : ℚ) + ((jsRound (t / 2) : ℤ) : ℚ) * 10 = ((jsRound (t / 2) : ℤ) : ℚ) * 10 by ring]
  rw [clampTick_mul_ten, clampTick_mul_ten]
  rw [if_neg]
  rw [not_or]
  constructor
  · rw [isValidTick_mul_ten]
    · simp
    · exact le_max_left _ _
    · exact max_le (by norm_num) (min_le_left _ _)
  · rw [isValidTick_mul_ten]
    · simp
    · exact le_max_left _ _
    · exact max_le (by norm_num) (min_le_left _ _)

lemma calculateQuoteTicks_ten : calculateQuoteTicks 10 = .ok ⟨-50, 50, 0, 50⟩ := by
  rw [calculateQuoteTicks_eq]
  rw [show jsRound ((10 : ℚ) / 2) = 5 by unfold jsRound; norm_num]
  rw [show (max (-200) (min 200 (-(5 : ℤ)))) = -5 by decide,
      show (max (-200) (min 200 (5 : ℤ))) = 5 by decide]
  norm_num

lemma getQuoteParams_eval (b q : String) (d : ℕ) :
    getQuoteParams b q d =
      .ok { baseToken := b, quoteToken := q, bidTick := -50, askTick := 50,
            bidFlipTick := 50, askFlipTick := -50,
            orderSize := ⌊ORDER_SIZE_HUMAN * (10 : ℚ) ^ d⌋, decimals := d } := by
  unfold getQuoteParams TOTAL_SPREAD_BPS
  rw [calculateQuoteTicks_ten]
  show (Except.ok (⟨-50, 50, 0, 50⟩ : QuoteTicks)).bind _ = _
  rw [Except.bind]
  norm_num [assertFlipConstraints, Except.bind]
  rfl

end Tempo

namespace Tempo

/-- Claim C6: for every total spread of at least one basis point (the
configured-bounds reading of a valid spread), the quote has a negative bid
tick and a positive ask tick, both valid (on the spacing grid and within the
tick bounds), and when the rounded half spread is not clamped the quote width
is exactly twice the half spread. -/
theorem calculateQuoteTicks_valid_spread (t : ℚ) (ht : 1 ≤ t) (q : QuoteTicks)
    (hq : calculateQuoteTicks t = .ok q) :
    q.bidTick < 0 ∧ 0 < q.askTick ∧ isValidTick q.bidTick = true ∧
      isValidTick q.askTick = true ∧
      (q.halfSpreadTicks ≤ 2000 → q.askTick - q.bidTick = 2 * q.halfSpreadTicks) := by
  rw [calculateQuoteTicks_eq, Except.ok.injEq] at hq
  subst hq
  have hm1 : 1 ≤ jsRound (t / 2) := by
    unfold jsRound
    rw [Int.le_floor]
    push_cast
    linarith
  set m := jsRound (t / 2) with hm
  have hminneg : min 200 (-m) = -m := min_eq_right (by omega)
  have hminpos : 1 ≤ min 200 m := le_min (by omega) hm1
  have hbid : max (-200) (min 200 (-m)) ≤ -1 := by
    rw [hminneg]
    exact max_le (by omega) (by omega)
  have hask : 1 ≤ max (-200) (min 200 m) := le_trans hminpos (le_max_right _ _)
  refine ⟨?_, ?_, ?_, ?_, ?_⟩
  · show ((max (-200) (min 200 (-m)) : ℤ) : ℚ) * 10 < 0
    have : ((max (-200) (min 200 (-m)) : ℤ) : ℚ) ≤ -1 := by exact_mod_cast hbid
    nlinarith
  · show (0 : ℚ) < ((max (-200) (min 200 m) : ℤ) : ℚ) * 10
    have : (1 : ℚ) ≤ ((max (-200) (min 200 m) : ℤ) : ℚ) := by exact_mod_cast hask
    nlinarith
  · exact isValidTick_mul_ten _ (le_max_left _ _) (max_le (by norm_num) (min_le_left _ _))
  · exact isValidTick_mul_ten _ (le_max_left _ _) (max_le (by norm_num) (min_le_left _ _))
  · intro hh
    have hm200 : m ≤ 200 := by
      have : ((m : ℤ) : ℚ) * 10 ≤ 2000 := hh
      have : ((m : ℤ) : ℚ) ≤ 200 := by nlinarith
      exact_mod_cast this
    have e1 : min 200 m = m := min_eq_right hm200
    have e2 : max (-200) (min 200 (-m)) = -m := by
      rw [hminneg]
      exact max_eq_right (by omega)
    have e3 : max (-200) (min 200 m) = m := by
      rw [e1]
      exact max_eq_right (by omega)
    show ((max (-200) (min 200 m) : ℤ) : ℚ) * 10 -
        ((max (-200) (min 200 (-m)) : ℤ) : ℚ) * 10 = 2 * (((m : ℤ) : ℚ) * 10)
    rw [e2, e3]
    push_cast
    ring

/-- Witness for C6 at the shipped spread of 10 bps. -/
theorem calculateQuoteTicks_valid_spread_witness :
    (-50 : ℚ) < 0 ∧ 0 < (50 : ℚ) ∧ isValidTick (-50) = true ∧ isValidTick 50 = true ∧
      ((50 : ℚ) ≤ 2000 → (50 : ℚ) - (-50) = 2 * 50) :=
  calculateQuoteTicks_valid_spread 10 (by norm_num) ⟨-50, 50, 0, 50⟩ calculateQuoteTicks_ten

/-- Claim C10: for every (finite) numeric total spread, the
`Invalid ticks calculated` throw in `calculateQuoteTicks` is unreachable:
rounding always lands on the spacing grid and clamping saturates to grid
points within bounds, so both ticks pass `isValidTick`. -/
theorem calculateQuoteTicks_never_throws (t : ℚ) :
    exceptIsOk (calculateQuoteTicks t) = true := by
  rw [calculateQuoteTicks_eq]
  rfl

/-- Claim C7 (code bug): `roundToSpacing` rounds to the nearest multiple of
10, but resolves exact halves by rounding half toward positive infinity
(JavaScript `Math.round`), not half to even as its own comment and the spec
state: 25 lands on 30, not 20.  (35 lands on 40 and 24 on 20 in both modes;
-25 lands on -20.) -/
theorem roundToSpacing_half_up_at_25 :
    roundToSpacing 25 = 30 ∧ roundToSpacing 35 = 40 ∧ roundToSpacing 24 = 20 ∧
      roundToSpacing (-25) = -20 := by
  refine ⟨?_, ?_, ?_, ?_⟩ <;> unfold roundToSpacing jsRound TICK_SPACING <;> norm_num

/-- Claim C1: with the shipped configuration (total spread 10 bps, tick
spacing 10), `calculateQuoteTicks` returns a half spread of 50 ticks with
bid tick -50 and ask tick +50, and `getQuoteParams` pairs the flip targets
crosswise: the bid flips to the ask tick (+50) and the ask flips to the bid
tick (-50). -/
theorem quote_scenario_ten_bps :
    calculateQuoteTicks 10 = .ok ⟨-50, 50, 0, 50⟩ ∧
      getQuoteParams "AlphaUSD" "pathUSD" 6 =
        .ok ⟨"AlphaUSD", "pathUSD", -50, 50, 50, -50, 100000000, 6⟩ := by
  constructor
  · exact calculateQuoteTicks_ten
  · rw [getQuoteParams_eval]
    norm_num [ORDER_SIZE_HUMAN, QuoteParams.mk.injEq]

/-- Claim C5: `assertFlipConstraints` throws for a bid exactly when
`flipTick ≤ tick` and for an ask exactly when `flipTick ≥ tick`; and
`getQuoteParams` runs these checks before returning, so any quote parameters
it produces satisfy the strict flip constraints. -/
theorem assertFlipConstraints_spec :
    (∀ tick flipTick : ℚ,
        exceptIsOk (assertFlipConstraints true tick flipTick) = false ↔ flipTick ≤ tick) ∧
      (∀ tick flipTick : ℚ,
        exceptIsOk (assertFlipConstraints false tick flipTick) = false ↔ tick ≤ flipTick) ∧
      (∀ (b q : String) (d : ℕ) (p : QuoteParams), getQuoteParams b q d = .ok p →
        p.bidTick < p.bidFlipTick ∧ p.askFlipTick < p.askTick) := by
  refine ⟨?_, ?_, ?_⟩
  · intro tick flipTick
    rw [show assertFlipConstraints true tick flipTick =
        (if flipTick ≤ tick then .error "Flip constraint violated for bid" else .ok ()) from rfl]
    split_ifs with h <;> simp [exceptIsOk, h]
  · intro tick flipTick
    rw [show assertFlipConstraints false tick flipTick =
        (if tick ≤ flipTick then .error "Flip constraint violated for ask" else .ok ()) from rfl]
    split_ifs with h <;> simp [exceptIsOk, h]
  · intro b q d p hp
    rw [getQuoteParams_eval, Except.ok.injEq] at hp
    subst hp
    norm_num

/-- Witness for C5: a violating bid pair is rejected, and the shipped quote
parameters satisfy both strict constraints. -/
theorem assertFlipConstraints_spec_witness :
    exceptIsOk (assertFlipConstraints true 0 0) = false ∧
      exceptIsOk (assertFlipConstraints false 0 0) = false ∧
      ((-50 : ℚ) < 50 ∧ (-50 : ℚ) < 50) := by
  refine ⟨?_, ?_, ?_⟩
  · exact (assertFlipConstraints_spec.1 0 0).mpr le_rfl
  · exact (assertFlipConstraints_spec.2.1 0 0).mpr le_rfl
  · exact assertFlipConstraints_spec.2.2 "AlphaUSD" "pathUSD" 6
      ⟨"AlphaUSD", "pathUSD", -50, 50, 50, -50, 100000000, 6⟩
      (by rw [getQuoteParams_eval]; norm_num [ORDER_SIZE_HUMAN, QuoteParams.mk.injEq])

end Tempo

namespace Tempo

lemma resetDaily_same (tc : TxCounters) (now : JsDate)
    (h1 : now.day = tc.dailyResetAt.day) (h2 : now.month = tc.dailyResetAt.month)
    (h3 : now.year = tc.dailyResetAt.year) : resetDailyIfNeeded tc now = tc := by
  unfold resetDailyIfNeeded
  rw [if_neg]
  simp [h1, h2, h3]

lemma resetDaily_diff (tc : TxCounters) (now : JsDate)
    (h : now.day ≠ tc.dailyResetAt.day ∨ now.month ≠ tc.dailyResetAt.month ∨
         now.year ≠ tc.dailyResetAt.year) :
    resetDailyIfNeeded tc now = { tc with dailyTxCount := 0, dailyResetAt := now } := by
  unfold resetDailyIfNeeded
  rw [if_pos h]

lemma resetDaily_hourlyCancelCount (tc : TxCounters) (now : JsDate) :
    (resetDailyIfNeeded tc now).hourlyCancelCount = tc.hourlyCancelCount := by
  unfold resetDailyIfNeeded
  split <;> rfl

lemma resetDaily_hourlyResetAt (tc : TxCounters) (now : JsDate) :
    (resetDailyIfNeeded tc now).hourlyResetAt = tc.hourlyResetAt := by
  unfold resetDailyIfNeeded
  split <;> rfl

lemma resetHourly_dailyTxCount (tc : TxCounters) (now : JsDate) :
    (resetHourlyIfNeeded tc now).dailyTxCount = tc.dailyTxCount := by
  unfold resetHourlyIfNeeded
  split <;> rfl

lemma resetHourly_dailyResetAt (tc : TxCounters) (now : JsDate) :
    (resetHourlyIfNeeded tc now).dailyResetAt = tc.dailyResetAt := by
  unfold resetHourlyIfNeeded
  split <;> rfl

/-- The millisecond form of the hourly-window condition. -/
lemma one_le_hoursDiff_iff (d : ℤ) :
    (1 : ℚ) ≤ (d : ℚ) / (1000 * 60 * 60) ↔ 3600000 ≤ d := by
  rw [one_le_div (by norm_num : (0 : ℚ) < 1000 * 60 * 60)]
  rw [show ((1000 * 60 * 60 : ℚ)) = ((3600000 : ℤ) : ℚ) by norm_num]
  exact Int.cast_le

lemma resetHourly_count (tc : TxCounters) (now : JsDate) :
    (resetHourlyIfNeeded tc now).hourlyCancelCount =
      if 3600000 ≤ now.millis - tc.hourlyResetAt.millis then 0
      else tc.hourlyCancelCount := by
  unfold resetHourlyIfNeeded
  simp only [one_le_hoursDiff_iff]
  split <;> simp

/-- Claim C3: with the stored daily window still on the current calendar day
and the daily counter at its maximum, a non-cancel `incrementTxCounter` call
is rejected, the counter is not incremented and nothing is persisted; with
the stored window on a different calendar day (any of day, month, year), the
daily counter is reset to 0 before the allowance check, so the call is
allowed and the counter ends at 1 with the window re-anchored at `now`. -/
theorem incrementTxCounter_daily_budget (s : EngineState) (now : JsDate) :
    (now.day = s.txCounters.dailyResetAt.day →
      now.month = s.txCounters.dailyResetAt.month →
      now.year = s.txCounters.dailyResetAt.year →
      s.txCounters.dailyTxCount = MAX_TX_PER_DAY →
      (incrementTxCounter s now false).2.1.allowed = false ∧
        ((incrementTxCounter s now false).1).txCounters.dailyTxCount = MAX_TX_PER_DAY ∧
        (incrementTxCounter s now false).2.2 = false) ∧
      ((now.day ≠ s.txCounters.dailyResetAt.day ∨ now.month ≠ s.txCounters.dailyResetAt.month ∨
          now.year ≠ s.txCounters.dailyResetAt.year) →
        (incrementTxCounter s now false).2.1.allowed = true ∧
          ((incrementTxCounter s now false).1).txCounters.dailyTxCount = 1 ∧
          ((incrementTxCounter s now false).1).txCounters.dailyResetAt = now) := by
  constructor
  · intro h1 h2 h3 hc
    have hd : (resetHourlyIfNeeded (resetDailyIfNeeded s.txCounters now) now).dailyTxCount =
        MAX_TX_PER_DAY := by
      rw [resetHourly_dailyTxCount, resetDaily_same _ _ h1 h2 h3, hc]
    simp only [incrementTxCounter, hd]
    norm_num [MAX_TX_PER_DAY]
    exact hd.trans rfl
  · intro h
    have hd : (resetHourlyIfNeeded (resetDailyIfNeeded s.txCounters now) now).dailyTxCount = 0 := by
      rw [resetHourly_dailyTxCount, resetDaily_diff _ _ h]
    have hr : (resetHourlyIfNeeded (resetDailyIfNeeded s.txCounters now) now).dailyResetAt =
        now := by
      rw [resetHourly_dailyResetAt, resetDaily_diff _ _ h]
    simp only [incrementTxCounter, hd, hr, MAX_TX_PER_DAY, saveState]
    norm_num

def cappedState : EngineState :=
  { schemaVersion := 1, makerAddress := "0xm", pairs := [], lastProcessedBlock := 0,
    txCounters := { dailyTxCount := 100, dailyResetAt := ⟨5, 9, 2026, 0⟩,
                    hourlyCancelCount := 0, hourlyResetAt := ⟨5, 9, 2026, 0⟩ },
    createdAt := ⟨5, 9, 2026, 0⟩, updatedAt := ⟨5, 9, 2026, 0⟩ }

def sameDayNow : JsDate := ⟨5, 9, 2026, 1000⟩

def nextDayNow : JsDate := ⟨6, 9, 2026, 86400000⟩

/-- Witness for C3: concrete same-day rejection at the cap, and a concrete
cross-day reset. -/
theorem incrementTxCounter_daily_budget_witness :
    (incrementTxCounter cappedState sameDayNow false).2.1.allowed = false ∧
      ((incrementTxCounter cappedState nextDayNow false).1).txCounters.dailyTxCount = 1 := by
  constructor
  · exact ((incrementTxCounter_daily_budget cappedState sameDayNow).1 rfl rfl rfl rfl).1
  · refine ((incrementTxCounter_daily_budget cappedState nextDayNow).2 ?_).2.1
    simp [cappedState, nextDayNow]

/-- Claim C9 (amended): the hourly cancel counter is treated as reset exactly
when at least 60 minutes (3,600,000 ms, the source condition
`hoursDiff >= 1`) have elapsed since `hourlyResetAt`; strictly below that the
stored count is in force, in both `checkTxBudget` and `incrementTxCounter`. -/
theorem hourly_reset_boundary_amended (s : EngineState) (now : JsDate) :
    (checkTxBudget s now true).hourlyRemaining =
      some (MAX_CANCELS_PER_HOUR -
        (if 3600000 ≤ now.millis - s.txCounters.hourlyResetAt.millis then 0
         else s.txCounters.hourlyCancelCount)) ∧
      ((incrementTxCounter s now true).2.1).hourlyRemaining =
        some (max 0 (MAX_CANCELS_PER_HOUR -
          (if 3600000 ≤ now.millis - s.txCounters.hourlyResetAt.millis then 0
           else s.txCounters.hourlyCancelCount) - 1)) := by
  constructor
  · simp only [checkTxBudget, one_le_hoursDiff_iff]
    simp
  · have hc : (resetHourlyIfNeeded (resetDailyIfNeeded s.txCounters now) now).hourlyCancelCount =
        if 3600000 ≤ now.millis - s.txCounters.hourlyResetAt.millis then 0
        else s.txCounters.hourlyCancelCount := by
      rw [resetHourly_count, resetDaily_hourlyResetAt, resetDaily_hourlyCancelCount]
    simp only [incrementTxCounter, hc]
    simp

def cexBudgetState : EngineState :=
  { schemaVersion := 1, makerAddress := "0xmaker", pairs := [],
    lastProcessedBlock := 0,
    txCounters := { dailyTxCount := 0, dailyResetAt := ⟨5, 9, 2026, 0⟩,
                    hourlyCancelCount := 10, hourlyResetAt := ⟨5, 9, 2026, 0⟩ },
    createdAt := ⟨5, 9, 2026, 0⟩, updatedAt := ⟨5, 9, 2026, 0⟩ }

def cexNow : JsDate := ⟨5, 9, 2026, 3600000⟩

/-- Counterexample to C9 as stated: exactly 60 minutes (3,600,000 ms) after
`hourlyResetAt`, with the stored hourly cancel count at its maximum of 10,
the claim says the stored count is still in force (so a cancel must be
rejected), but both `checkTxBudget` and `incrementTxCounter` have already
reset the window: the cancel is allowed and the remaining allowance ignores
the stored count. -/
theorem hourly_reset_boundary_cex :
    cexNow.millis - cexBudgetState.txCounters.hourlyResetAt.millis = 3600000 ∧
      cexBudgetState.txCounters.hourlyCancelCount = MAX_CANCELS_PER_HOUR ∧
      (checkTxBudget cexBudgetState cexNow true).allowed = true ∧
      (checkTxBudget cexBudgetState cexNow true).hourlyRemaining =
        some MAX_CANCELS_PER_HOUR ∧
      (incrementTxCounter cexBudgetState cexNow true).2.1.allowed = true := by
  refine ⟨rfl, rfl, ?_, ?_, ?_⟩
  · norm_num [checkTxBudget, cexBudgetState, cexNow, MAX_TX_PER_DAY, MAX_CANCELS_PER_HOUR]
  · norm_num [checkTxBudget, cexBudgetState, cexNow, MAX_TX_PER_DAY, MAX_CANCELS_PER_HOUR]
  · norm_num [incrementTxCounter, resetDailyIfNeeded, resetHourlyIfNeeded, cexBudgetState,
      cexNow, MAX_TX_PER_DAY, MAX_CANCELS_PER_HOUR]

end Tempo

namespace Tempo

lemma reconcileBidStep_fst_askOrderId {ε : Type} (fetch : String → Except ε (Option OrderInfo))
    (ps : PairState) : (reconcileBidStep fetch ps).1.askOrderId = ps.askOrderId := by
  unfold reconcileBidStep
  repeat' split
  all_goals rfl

lemma reconcileAskStep_fst_bidOrderId {ε : Type} (fetch : String → Except ε (Option OrderInfo))
    (ps : PairState) : (reconcileAskStep fetch ps).1.bidOrderId = ps.bidOrderId := by
  unfold reconcileAskStep
  repeat' split
  all_goals rfl

lemma reconcileBidStep_error {ε : Type} (fetch : String → Except ε (Option OrderInfo))
    (ps : PairState) (oid : String) (e : ε) (hid : ps.bidOrderId = some oid)
    (hne : oid ≠ "") (hf : fetch oid = .error e) :
    reconcileBidStep fetch ps = ({ ps with bidOrderId := none }, ([oid], false)) := by
  simp only [reconcileBidStep, hid]
  rw [if_neg hne, hf]

lemma reconcileBidStep_notFound {ε : Type} (fetch : String → Except ε (Option OrderInfo))
    (ps : PairState) (oid : String) (hid : ps.bidOrderId = some oid)
    (hne : oid ≠ "") (hf : fetch oid = .ok none) :
    reconcileBidStep fetch ps = ({ ps with bidOrderId := none }, ([oid], false)) := by
  simp only [reconcileBidStep, hid]
  rw [if_neg hne, hf]

lemma reconcileBidStep_zero {ε : Type} (fetch : String → Except ε (Option OrderInfo))
    (ps : PairState) (oid : String) (o : OrderInfo) (hid : ps.bidOrderId = some oid)
    (hne : oid ≠ "") (hf : fetch oid = .ok (some o)) (hr : o.remainingAmount = 0) :
    reconcileBidStep fetch ps = ({ ps with bidOrderId := none }, ([oid], false)) := by
  simp only [reconcileBidStep, hid]
  rw [if_neg hne, hf]
  simp [hr]

lemma reconcileBidStep_active {ε : Type} (fetch : String → Except ε (Option OrderInfo))
    (ps : PairState) (oid : String) (o : OrderInfo) (hid : ps.bidOrderId = some oid)
    (hne : oid ≠ "") (hf : fetch oid = .ok (some o)) (hr : 0 < o.remainingAmount) :
    reconcileBidStep fetch ps = (ps, ([], true)) := by
  simp only [reconcileBidStep, hid]
  rw [if_neg hne, hf]
  simp [hr]

lemma reconcileAskStep_error {ε : Type} (fetch : String → Except ε (Option OrderInfo))
    (ps : PairState) (oid : String) (e : ε) (hid : ps.askOrderId = some oid)
    (hne : oid ≠ "") (hf : fetch oid = .error e) :
    reconcileAskStep fetch ps = ({ ps with askOrderId := none }, ([oid], false)) := by
  simp only [reconcileAskStep, hid]
  rw [if_neg hne, hf]

lemma reconcileAskStep_notFound {ε : Type} (fetch : String → Except ε (Option OrderInfo))
    (ps : PairState) (oid : String) (hid : ps.askOrderId = some oid)
    (hne : oid ≠ "") (hf : fetch oid = .ok none) :
    reconcileAskStep fetch ps = ({ ps with askOrderId := none }, ([oid], false)) := by
  simp only [reconcileAskStep, hid]
  rw [if_neg hne, hf]

lemma reconcileAskStep_zero {ε : Type} (fetch : String → Except ε (Option OrderInfo))
    (ps : PairState) (oid : String) (o : OrderInfo) (hid : ps.askOrderId = some oid)
    (hne : oid ≠ "") (hf : fetch oid = .ok (some o)) (hr : o.remainingAmount = 0) :
    reconcileAskStep fetch ps = ({ ps with askOrderId := none }, ([oid], false)) := by
  simp only [reconcileAskStep, hid]
  rw [if_neg hne, hf]
  simp [hr]

lemma reconcileAskStep_active {ε : Type} (fetch : String → Except ε (Option OrderInfo))
    (ps : PairState) (oid : String) (o : OrderInfo) (hid : ps.askOrderId = some oid)
    (hne : oid ≠ "") (hf : fetch oid = .ok (some o)) (hr : 0 < o.remainingAmount) :
    reconcileAskStep fetch ps = (ps, ([], true)) := by
  simp only [reconcileAskStep, hid]
  rw [if_neg hne, hf]
  simp [hr]

end Tempo

namespace Tempo

/-- Claim C8: `loadState` returns the stored state exactly when the schema
version matches `SCHEMA_VERSION` and the maker address matches
case-insensitively; in every other case (missing file, unreadable or
unparseable content, version mismatch, address mismatch) it fabricates,
persists and returns the fresh default state, which has no pairs and zeroed
transaction counters. -/
theorem loadState_spec (file : StateFileRead) (makerAddress : String) (now : JsDate) :
    (∀ s : EngineState, file = .parsed s → s.schemaVersion = SCHEMA_VERSION →
      s.makerAddress.toLower = makerAddress.toLower →
      loadState file makerAddress now = (s, false)) ∧
      (file = .missing →
        loadState file makerAddress now = (createDefaultState makerAddress now, true)) ∧
      (file = .unreadable →
        loadState file makerAddress now = (createDefaultState makerAddress now, true)) ∧
      (∀ s : EngineState, file = .parsed s →
        (s.schemaVersion ≠ SCHEMA_VERSION ∨ s.makerAddress.toLower ≠ makerAddress.toLower) →
        loadState file makerAddress now = (createDefaultState makerAddress now, true)) ∧
      (createDefaultState makerAddress now).pairs = [] ∧
      (createDefaultState makerAddress now).txCounters.dailyTxCount = 0 ∧
      (createDefaultState makerAddress now).txCounters.hourlyCancelCount = 0 := by
  refine ⟨?_, ?_, ?_, ?_, rfl, rfl, rfl⟩
  · intro s hfile hv ha
    subst hfile
    simp only [loadState]
    rw [if_neg (by simp [hv]), if_neg (by simp [ha])]
  · intro hfile
    subst hfile
    rfl
  · intro hfile
    subst hfile
    rfl
  · intro s hfile hmis
    subst hfile
    simp only [loadState]
    rcases hmis with hv | ha
    · rw [if_pos hv]
      rfl
    · by_cases hv : s.schemaVersion ≠ SCHEMA_VERSION
      · rw [if_pos hv]
        rfl
      · rw [if_neg hv, if_pos ha]
        rfl

def demoStoredState : EngineState :=
  { schemaVersion := 1, makerAddress := "0xabcd", pairs := [], lastProcessedBlock := 7,
    txCounters := { dailyTxCount := 3, dailyResetAt := ⟨1, 0, 2026, 0⟩,
                    hourlyCancelCount := 1, hourlyResetAt := ⟨1, 0, 2026, 0⟩ },
    createdAt := ⟨1, 0, 2026, 0⟩, updatedAt := ⟨1, 0, 2026, 0⟩ }

/-- Witness for C8: a matching stored state is returned as-is; a missing file
and a version mismatch both yield the persisted fresh default state. -/
theorem loadState_spec_witness :
    loadState (.parsed demoStoredState) "0xabcd" ⟨2, 0, 2026, 5⟩ = (demoStoredState, false) ∧
      loadState .missing "0xabcd" ⟨2, 0, 2026, 5⟩ =
        (createDefaultState "0xabcd" ⟨2, 0, 2026, 5⟩, true) ∧
      loadState (.parsed { demoStoredState with schemaVersion := 2 }) "0xabcd" ⟨2, 0, 2026, 5⟩ =
        (createDefaultState "0xabcd" ⟨2, 0, 2026, 5⟩, true) := by
  refine ⟨?_, ?_, ?_⟩
  · exact (loadState_spec (.parsed demoStoredState) "0xabcd" ⟨2, 0, 2026, 5⟩).1
      demoStoredState rfl rfl rfl
  · exact (loadState_spec .missing "0xabcd" ⟨2, 0, 2026, 5⟩).2.1 rfl
  · exact (loadState_spec _ "0xabcd" ⟨2, 0, 2026, 5⟩).2.2.2.1
      { demoStoredState with schemaVersion := 2 } rfl (Or.inl (by norm_num [SCHEMA_VERSION]))

/-- Claim C4: for a pair state with a stored (truthy) order id on either
side, `reconcileOrders` clears the id and reports it stale when the chain
says the order is gone or has zero remaining quantity, and keeps the id with
the matching valid flag set when the chain reports positive remaining
quantity. -/
theorem reconcileOrders_stale_and_valid {ε : Type}
    (fetch : String → Except ε (Option OrderInfo)) (ps : PairState) (oid : String)
    (hne : oid ≠ "") :
    (ps.bidOrderId = some oid →
      (fetch oid = .ok none →
        (reconcileOrders fetch ps).1.bidOrderId = none ∧
          oid ∈ (reconcileOrders fetch ps).2.staleOrderIds) ∧
      (∀ o : OrderInfo, fetch oid = .ok (some o) → o.remainingAmount = 0 →
        (reconcileOrders fetch ps).1.bidOrderId = none ∧
          oid ∈ (reconcileOrders fetch ps).2.staleOrderIds) ∧
      (∀ o : OrderInfo, fetch oid = .ok (some o) → 0 < o.remainingAmount →
        (reconcileOrders fetch ps).1.bidOrderId = some oid ∧
          (reconcileOrders fetch ps).2.bidValid = true)) ∧
      (ps.askOrderId = some oid →
        (fetch oid = .ok none →
          (reconcileOrders fetch ps).1.askOrderId = none ∧
            oid ∈ (reconcileOrders fetch ps).2.staleOrderIds) ∧
        (∀ o : OrderInfo, fetch oid = .ok (some o) → o.remainingAmount = 0 →
          (reconcileOrders fetch ps).1.askOrderId = none ∧
            oid ∈ (reconcileOrders fetch ps).2.staleOrderIds) ∧
        (∀ o : OrderInfo, fetch oid = .ok (some o) → 0 < o.remainingAmount →
          (reconcileOrders fetch ps).1.askOrderId = some oid ∧
            (reconcileOrders fetch ps).2.askValid = true)) := by
  constructor
  · intro hid
    refine ⟨fun hf => ?_, fun o hf hr => ?_, fun o hf hr => ?_⟩
    · simp only [reconcileOrders, reconcileBidStep_notFound fetch ps oid hid hne hf]
      simp [reconcileAskStep_fst_bidOrderId]
    · simp only [reconcileOrders, reconcileBidStep_zero fetch ps oid o hid hne hf hr]
      simp [reconcileAskStep_fst_bidOrderId]
    · simp only [reconcileOrders, reconcileBidStep_active fetch ps oid o hid hne hf hr]
      simp [reconcileAskStep_fst_bidOrderId, hid]
  · intro hid
    have hid1 : ∀ q : PairState, q.askOrderId = ps.askOrderId →
        q.askOrderId = some oid := fun q hq => hq.trans hid
    refine ⟨fun hf => ?_, fun o hf hr => ?_, fun o hf hr => ?_⟩
    · simp only [reconcileOrders,
        reconcileAskStep_notFound fetch (reconcileBidStep fetch ps).1 oid
          (hid1 _ (reconcileBidStep_fst_askOrderId fetch ps)) hne hf]
      simp
    · simp only [reconcileOrders,
        reconcileAskStep_zero fetch (reconcileBidStep fetch ps).1 oid o
          (hid1 _ (reconcileBidStep_fst_askOrderId fetch ps)) hne hf hr]
      simp
    · simp only [reconcileOrders,
        reconcileAskStep_active fetch (reconcileBidStep fetch ps).1 oid o
          (hid1 _ (reconcileBidStep_fst_askOrderId fetch ps)) hne hf hr]
      simp [reconcileBidStep_fst_askOrderId, hid]

end Tempo

namespace Tempo

/-- A lookup that always fails with a transport error, as during an RPC
outage. -/
def errFetch : String → Except String (Option OrderInfo) := fun _ => .error "network timeout"

def cexPair : PairState :=
  { base := "AlphaUSD", quote := "pathUSD", bidOrderId := some "1", askOrderId := none,
    lastBidTick := some (-50), lastAskTick := some 50, lastBidFlipTick := some 50,
    lastAskFlipTick := some (-50), updatedAt := ⟨5, 9, 2026, 0⟩ }

/-- Counterexample to C2 as stated: with a stored bid order id "1" and an
order lookup that raises a transport error, `reconcileOrders` does not
propagate the error (it returns normally), clears the stored id, and reports
it in the stale list — the bare `catch` swallows the failure. -/
theorem reconcileOrders_swallows_error_cex :
    (reconcileOrders errFetch cexPair).1.bidOrderId = none ∧
      (reconcileOrders errFetch cexPair).2.staleOrderIds = ["1"] := by
  constructor <;> rfl

/-- Claim C2 (amended): `getOrder` returns the not-found result only for the
`OrderDoesNotExist` condition and re-throws every other error, but
`reconcileOrders` catches all lookup errors — transport errors included —
and treats them exactly like a missing order: the stored id is cleared and
added to the stale list, and nothing is propagated. -/
theorem getOrder_and_reconcile_error_amended :
    (∀ (ε : Type) (fetch : String → Except ε (Option OrderInfo)) (ps : PairState)
        (oid : String) (e : ε), ps.bidOrderId = some oid → oid ≠ "" → fetch oid = .error e →
        (reconcileOrders fetch ps).1.bidOrderId = none ∧
          oid ∈ (reconcileOrders fetch ps).2.staleOrderIds) ∧
      (∀ (ε : Type) (fetch : String → Except ε (Option OrderInfo)) (ps : PairState)
        (oid : String) (e : ε), ps.askOrderId = some oid → oid ≠ "" → fetch oid = .error e →
        (reconcileOrders fetch ps).1.askOrderId = none ∧
          oid ∈ (reconcileOrders fetch ps).2.staleOrderIds) ∧
      (∀ (orderId : ℕ) (e : DexCallError),
        getOrder orderId (.error e) =
          if isOrderDoesNotExistError e = true then .ok none else .error e) := by
  refine ⟨?_, ?_, ?_⟩
  · intro ε fetch ps oid e hid hne hf
    simp only [reconcileOrders, reconcileBidStep_error fetch ps oid e hid hne hf]
    simp [reconcileAskStep_fst_bidOrderId]
  · intro ε fetch ps oid e hid hne hf
    simp only [reconcileOrders,
      reconcileAskStep_error fetch (reconcileBidStep fetch ps).1 oid e
        ((reconcileBidStep_fst_askOrderId fetch ps).trans hid) hne hf]
    simp
  · intro orderId e
    rfl

/-- Witness for the amended C2 at concrete inputs. -/
theorem getOrder_and_reconcile_error_amended_witness :
    ((reconcileOrders errFetch cexPair).1.bidOrderId = none ∧
      "1" ∈ (reconcileOrders errFetch cexPair).2.staleOrderIds) ∧
      getOrder 1 (.error (.rpcFailure "connection reset")) =
        .error (.rpcFailure "connection reset") := by
  constructor
  · exact getOrder_and_reconcile_error_amended.1 String errFetch cexPair "1"
      "network timeout" rfl (by decide) rfl
  · have h := getOrder_and_reconcile_error_amended.2.2 1 (.rpcFailure "connection reset")
    simpa [isOrderDoesNotExistError] using h

end Tempo

namespace Tempo

/-- A lookup reporting every order as gone (filled or cancelled). -/
def staleFetch : String → Except String (Option OrderInfo) := fun _ => .ok none

def activeOrder : OrderInfo :=
  { orderId := 1, maker := "0xmaker", baseToken := "0xbase", quoteToken := "0xquote",
    isBid := true, isFlip := true, tick := -50, flipTick := some 50, amount := 100,
    remainingAmount := 100, status := .openStatus }

/-- A lookup reporting every order as open with positive remaining quantity. -/
def activeFetch : String → Except String (Option OrderInfo) := fun _ => .ok (some activeOrder)

/-- Witness for C4: a not-found bid is cleared and reported stale; an active
bid stays stored and is reported valid. -/
theorem reconcileOrders_stale_and_valid_witness :
    ((reconcileOrders staleFetch cexPair).1.bidOrderId = none ∧
      "1" ∈ (reconcileOrders staleFetch cexPair).2.staleOrderIds) ∧
      ((reconcileOrders activeFetch cexPair).1.bidOrderId = some "1" ∧
        (reconcileOrders activeFetch cexPair).2.bidValid = true) := by
  constructor
  · exact ((reconcileOrders_stale_and_valid staleFetch cexPair "1" (by decide)).1 rfl).1 rfl
  · exact ((reconcileOrders_stale_and_valid activeFetch cexPair "1" (by decide)).1 rfl).2.2
      activeOrder rfl (by decide)

end Tempo
